import Mathlib

/-!
Verification of the Married-Filing-Jointly federal tax estimator
(`src/tax_estimator.ts`).

The source operates on JavaScript numbers. The embedding models the
public API boundary with `Tax.JNum` (a finite rational, an infinity, or
NaN) and all internal pipeline arithmetic with exact rationals `ℚ`:
every internal value is produced from ingestion-clamped inputs by
addition, multiplication, `min`, `max`, and subtraction of finite
quantities, so it is a finite number, and the source's use of `clamp0`
on such values reduces to `max 0`.  Bracket upper bounds may be
`Number.POSITIVE_INFINITY`, modelled by `Tax.BUpTo`.
-/

namespace Tax

/-- JavaScript number as it appears at the entry-point boundary:
NaN, one of the two infinities, or a finite value (an exact rational in
this embedding). -/
inductive JNum where
  | nan
  | posInf
  | negInf
  | fin (q : ℚ)
deriving DecidableEq

/-- Source `clamp0` applied to a raw JS number:
`Number.isFinite(n) ? Math.max(0, n) : 0`. -/
def clamp0J : JNum → ℚ
  | .fin q => max 0 q
  | _ => 0

/-- Source `clamp0` at a finite argument (all internal pipeline values
are finite, where `Number.isFinite` is true and `clamp0` is `Math.max(0, ·)`). -/
def clamp0 (x : ℚ) : ℚ := max 0 x

/-- Source `dollarsFromK`: `clamp0(k) * 1000`. -/
def dollarsFromK (k : JNum) : ℚ := clamp0J k * 1000

/-- Source `STD_DED`. -/
def STD_DED : ℚ := 31500

/-- Upper bound of a bracket: a finite number or `Number.POSITIVE_INFINITY`. -/
inductive BUpTo where
  | inf
  | fin (q : ℚ)
deriving DecidableEq

/-- One row of the ordinary-bracket table: `{ upTo, rate }`. -/
structure Bracket where
  upTo : BUpTo
  rate : ℚ
deriving DecidableEq

/-- Source `ORD_BRACKETS` (MFJ ordinary-income brackets). -/
def ORD_BRACKETS : List Bracket :=
  [⟨.fin 23850, 0.1⟩,
   ⟨.fin 96950, 0.12⟩,
   ⟨.fin 206700, 0.22⟩,
   ⟨.fin 394600, 0.24⟩,
   ⟨.fin 501050, 0.32⟩,
   ⟨.fin 751600, 0.35⟩,
   ⟨.inf, 0.37⟩]

/-- Source `CG_ZERO`: top of the 0% long-term-gains band. -/
def CG_ZERO : ℚ := 96700

/-- Source `CG_FIFTEEN`: top of the 15% long-term-gains band. -/
def CG_FIFTEEN : ℚ := 600050

/-- Source `SALT_BASE_CAP`. -/
def SALT_BASE_CAP : ℚ := 40000

/-- Source `SALT_FLOOR_CAP`. -/
def SALT_FLOOR_CAP : ℚ := 10000

/-- Source `SALT_PHASEOUT_START_MAGI`. -/
def SALT_PHASEOUT_START_MAGI : ℚ := 500000

/-- Source `SALT_PHASEOUT_RATE`. -/
def SALT_PHASEOUT_RATE : ℚ := 0.3

/-- Source `CTC_PER_CHILD`. -/
def CTC_PER_CHILD : ℚ := 2200

/-- Source `CTC_PHASEOUT_START`. -/
def CTC_PHASEOUT_START : ℚ := 400000

/-- Source `CTC_PHASEOUT_STEP`. -/
def CTC_PHASEOUT_STEP : ℚ := 1000

/-- Source `CTC_PHASEOUT_PER_STEP`. -/
def CTC_PHASEOUT_PER_STEP : ℚ := 50

/-- Source `NIIT_THRESHOLD`. -/
def NIIT_THRESHOLD : ℚ := 250000

/-- Source `NIIT_RATE`. -/
def NIIT_RATE : ℚ := 0.038

/-- Source `CHARITABLE_CASH_AGI_CAP`. -/
def CHARITABLE_CASH_AGI_CAP : ℚ := 0.6

/-- `Math.min(x, upTo)` for finite `x` and a bracket upper bound. -/
def jsMinUp (x : ℚ) : BUpTo → ℚ
  | .inf => x
  | .fin u => min x u

/-- The loop's break test `taxable <= b.upTo`. -/
def jsLeUp (x : ℚ) : BUpTo → Prop
  | .inf => True
  | .fin u => x ≤ u

instance (x : ℚ) : (u : BUpTo) → Decidable (jsLeUp x u)
  | .inf => .isTrue trivial
  | .fin _ => inferInstanceAs (Decidable (_ ≤ _))

/-- Finite value of a bracket bound (the default is only consulted on the
`POSITIVE_INFINITY` row, where the source loop has already exited because
`taxable <= +∞` always holds). -/
def BUpTo.finVal (d : ℚ) : BUpTo → ℚ
  | .inf => d
  | .fin q => q

/-- The `for (const b of brackets)` loop of `taxFromBrackets`, carrying the
mutable `base` and `tax` accumulators:
`slice = max(0, min(taxable, b.upTo) - base); tax += slice * b.rate;`
with early exit when `taxable <= b.upTo`, else `base = b.upTo`. -/
def bracketLoop (taxable : ℚ) : List Bracket → ℚ → ℚ → ℚ
  | [], _, tax => tax
  | b :: bs, base, tax =>
    let slice := max 0 (jsMinUp taxable b.upTo - base)
    if jsLeUp taxable b.upTo then tax + slice * b.rate
    else bracketLoop taxable bs (b.upTo.finVal 0) (tax + slice * b.rate)

/-- Source `taxFromBrackets`.  The guard
`!Number.isFinite(taxable) || taxable <= 0` reduces to `taxable ≤ 0` for
the finite rationals of the embedding. -/
def taxFromBrackets (taxable : ℚ) (brackets : List Bracket) : ℚ :=
  if taxable ≤ 0 then 0 else bracketLoop taxable brackets 0 0

/-- Source `saltCapMFJ`:
`max(SALT_FLOOR_CAP, SALT_BASE_CAP - SALT_PHASEOUT_RATE * clamp0(magi - SALT_PHASEOUT_START_MAGI))`. -/
def saltCapMFJ (magi : ℚ) : ℚ :=
  max SALT_FLOOR_CAP
    (SALT_BASE_CAP - SALT_PHASEOUT_RATE * clamp0 (magi - SALT_PHASEOUT_START_MAGI))

/-- Source `childTaxCreditNonrefundable` with the hard-coded
`qualifyingChildrenUnder17 = 3`.  `Math.ceil` on a rational is `Int.ceil`. -/
def childTaxCreditNonrefundable (magi : ℚ) : ℚ :=
  let base := 3 * CTC_PER_CHILD
  let excess := clamp0 (magi - CTC_PHASEOUT_START)
  let steps : ℤ := if 0 < excess then ⌈excess / CTC_PHASEOUT_STEP⌉ else 0
  let reduction := (steps : ℚ) * CTC_PHASEOUT_PER_STEP
  max 0 (base - reduction)

/-- Source local `ordinaryPart = ordinaryIncome + dividends`. -/
def ordinaryPart (o d : ℚ) : ℚ := o + d

/-- Source local `agi = ordinaryPart + ltcg`. -/
def agi (o l d : ℚ) : ℚ := ordinaryPart o d + l

/-- Source local `magi = agi` (simplified, no add-backs). -/
def magi (o l d : ℚ) : ℚ := agi o l d

/-- Source local `charitableAllowed = min(charitableCash, CHARITABLE_CASH_AGI_CAP * agi)`. -/
def charitableAllowed (o l d c : ℚ) : ℚ :=
  min c (CHARITABLE_CASH_AGI_CAP * agi o l d)

/-- Source local `saltAllowed = min(saltPaid, saltCapMFJ(magi))`. -/
def saltAllowed (o l d s : ℚ) : ℚ := min s (saltCapMFJ (magi o l d))

/-- Source local `itemized = charitableAllowed + saltAllowed`. -/
def itemized (o l d c s : ℚ) : ℚ := charitableAllowed o l d c + saltAllowed o l d s

/-- Source local `deductionUsed = max(STD_DED, itemized)`. -/
def deductionUsed (o l d c s : ℚ) : ℚ := max STD_DED (itemized o l d c s)

/-- Source local `taxableOrdinary = clamp0(ordinaryPart - deductionUsed)`. -/
def taxableOrdinary (o l d c s : ℚ) : ℚ :=
  clamp0 (ordinaryPart o d - deductionUsed o l d c s)

/-- Source local `taxableIncome = clamp0(agi - deductionUsed)`. -/
def taxableIncome (o l d c s : ℚ) : ℚ :=
  clamp0 (agi o l d - deductionUsed o l d c s)

/-- Source local `taxableLtcg = clamp0(taxableIncome - taxableOrdinary)`. -/
def taxableLtcg (o l d c s : ℚ) : ℚ :=
  clamp0 (taxableIncome o l d c s - taxableOrdinary o l d c s)

/-- Source local `ordinaryTax = taxFromBrackets(taxableOrdinary, ORD_BRACKETS)`. -/
def ordinaryTax (o l d c s : ℚ) : ℚ :=
  taxFromBrackets (taxableOrdinary o l d c s) ORD_BRACKETS

/-- Source local `z = clamp0(min(taxableLtcg, CG_ZERO - taxableOrdinary))`. -/
def zBand (tO tL : ℚ) : ℚ := clamp0 (min tL (CG_ZERO - tO))

/-- Source local `f = clamp0(min(taxableLtcg - z, CG_FIFTEEN - (taxableOrdinary + z)))`. -/
def fBand (tO tL : ℚ) : ℚ :=
  clamp0 (min (tL - zBand tO tL) (CG_FIFTEEN - (tO + zBand tO tL)))

/-- Source local `t = clamp0(taxableLtcg - z - f)`. -/
def tBand (tO tL : ℚ) : ℚ := clamp0 (tL - zBand tO tL - fBand tO tL)

/-- Source local `ltcgTax = 0 * z + 0.15 * f + 0.2 * t`, as a function of the
stacking inputs. -/
def stackTax (tO tL : ℚ) : ℚ :=
  0 * zBand tO tL + 0.15 * fBand tO tL + 0.2 * tBand tO tL

/-- Source local `ltcgTax` applied to the pipeline's stacking inputs. -/
def ltcgTax (o l d c s : ℚ) : ℚ :=
  stackTax (taxableOrdinary o l d c s) (taxableLtcg o l d c s)

/-- Source local `nii = clamp0(dividends + ltcg)`. -/
def nii (l d : ℚ) : ℚ := clamp0 (d + l)

/-- Source local `niitBase = min(nii, clamp0(magi - NIIT_THRESHOLD))`. -/
def niitBase (o l d : ℚ) : ℚ :=
  min (nii l d) (clamp0 (magi o l d - NIIT_THRESHOLD))

/-- Source local `niitTax = niitBase * NIIT_RATE`. -/
def niitTax (o l d : ℚ) : ℚ := niitBase o l d * NIIT_RATE

/-- Source local `taxBeforeCredits = ordinaryTax + ltcgTax + niitTax`. -/
def taxBeforeCredits (o l d c s : ℚ) : ℚ :=
  ordinaryTax o l d c s + ltcgTax o l d c s + niitTax o l d

/-- Source local `ctcUsed = min(taxBeforeCredits, childTaxCreditNonrefundable(magi))`. -/
def ctcUsed (o l d c s : ℚ) : ℚ :=
  min (taxBeforeCredits o l d c s) (childTaxCreditNonrefundable (magi o l d))

/-- Source local `totalTax = Math.max(0, taxBeforeCredits - ctcUsed)`. -/
def totalTax (o l d c s : ℚ) : ℚ :=
  max 0 (taxBeforeCredits o l d c s - ctcUsed o l d c s)

/-- `Math.round` on a rational: round half toward positive infinity,
`⌊x + 1/2⌋`. -/
def jround (x : ℚ) : ℤ := ⌊x + 1 / 2⌋

/-- The result record returned by `estimateTaxMFJ`, with every currency
field rounded at the boundary (`Math.round`). -/
structure EstimateResult where
  agi : ℤ
  deductionUsed : ℤ
  itemizedUsed : Bool
  taxableOrdinary : ℤ
  taxableLtcg : ℤ
  ordinaryTax : ℤ
  ltcgTax : ℤ
  niitTax : ℤ
  childTaxCreditNonrefundableUsed : ℤ
  totalTax : ℤ
deriving DecidableEq

/-- Source `estimateTaxMFJ`: normalize the five thousands-denominated
inputs with `dollarsFromK`, run the pipeline, and round each currency
field of the result record. -/
def estimateTaxMFJ (ordinaryIncomeK ltcgK dividendsK charitableCashK saltPaidK : JNum) :
    EstimateResult :=
  let o := dollarsFromK ordinaryIncomeK
  let l := dollarsFromK ltcgK
  let d := dollarsFromK dividendsK
  let c := dollarsFromK charitableCashK
  let s := dollarsFromK saltPaidK
  { agi := jround (agi o l d)
    deductionUsed := jround (deductionUsed o l d c s)
    itemizedUsed := decide (deductionUsed o l d c s = itemized o l d c s)
    taxableOrdinary := jround (taxableOrdinary o l d c s)
    taxableLtcg := jround (taxableLtcg o l d c s)
    ordinaryTax := jround (ordinaryTax o l d c s)
    ltcgTax := jround (ltcgTax o l d c s)
    niitTax := jround (niitTax o l d)
    childTaxCreditNonrefundableUsed := jround (ctcUsed o l d c s)
    totalTax := jround (totalTax o l d c s) }

/-- Analysis helper (not from the source): the generic marginal slice
`max 0 (min x b - a)` of income `x` between bounds `a` and `b`. -/
def slice (x a b : ℚ) : ℚ := max 0 (min x b - a)

/-- Analysis helper (not from the source): closed form of the bracket walk
over `ORD_BRACKETS`, one marginal slice per row. -/
def ordTaxE (x : ℚ) : ℚ :=
  0.1 * slice x 0 23850 + 0.12 * slice x 23850 96950 + 0.22 * slice x 96950 206700 +
    0.24 * slice x 206700 394600 + 0.32 * slice x 394600 501050 +
    0.35 * slice x 501050 751600 + 0.37 * max 0 (x - 751600)

theorem clamp0_nonneg (x : ℚ) : 0 ≤ clamp0 x := le_max_left 0 x

theorem clamp0_mono {x y : ℚ} (h : x ≤ y) : clamp0 x ≤ clamp0 y :=
  max_le_max le_rfl h

theorem clamp0_of_nonneg {x : ℚ} (h : 0 ≤ x) : clamp0 x = x := max_eq_right h

/-- Increments of `clamp0` grow with the base point (convexity of `max 0`). -/
theorem clamp0_shift {A B e : ℚ} (hAB : A ≤ B) (he : 0 ≤ e) :
    clamp0 (A + e) - clamp0 A ≤ clamp0 (B + e) - clamp0 B := by
  simp only [clamp0, max_def]
  split_ifs <;> linarith

theorem min_add_le {a b e : ℚ} (he : 0 ≤ e) : min a (b + e) ≤ min a b + e := by
  simp only [min_def]
  split_ifs <;> linarith

theorem max_add_le {a b e : ℚ} (he : 0 ≤ e) : max a (b + e) ≤ max a b + e := by
  simp only [max_def]
  split_ifs <;> linarith

theorem sliceLe {x a : ℚ} (b : ℚ) (h : x ≤ a) : max 0 (min x b - a) = 0 := by
  have hm : min x b ≤ x := min_le_left _ _
  rw [max_eq_left (by linarith)]

theorem sliceMem {x a b : ℚ} (ha : a ≤ x) (hb : x ≤ b) : max 0 (min x b - a) = x - a := by
  rw [min_eq_left hb, max_eq_right (by linarith)]

theorem sliceGe {x a b : ℚ} (hab : a ≤ b) (hb : b ≤ x) : max 0 (min x b - a) = b - a := by
  rw [min_eq_right hb, max_eq_right (by linarith)]

/-- The source bracket walk over `ORD_BRACKETS` agrees with the closed form
`ordTaxE` at every taxable amount. -/
theorem taxFromBrackets_ord (x : ℚ) : taxFromBrackets x ORD_BRACKETS = ordTaxE x := by
  rcases le_or_lt x 0 with h0 | h0
  · rw [taxFromBrackets, if_pos h0]
    simp only [ordTaxE, slice]
    rw [sliceLe 23850 h0, sliceLe 96950 (by linarith), sliceLe 206700 (by linarith),
      sliceLe 394600 (by linarith), sliceLe 501050 (by linarith),
      sliceLe 751600 (by linarith), max_eq_left (by linarith : x - 751600 ≤ 0)]
    norm_num
  · rw [taxFromBrackets, if_neg (by linarith)]
    simp only [ORD_BRACKETS, bracketLoop, jsMinUp, jsLeUp, BUpTo.finVal, if_true]
    simp only [ordTaxE, slice]
    rcases le_or_lt x 23850 with h1 | h1
    · rw [if_pos h1, sliceMem h0.le h1, sliceLe 96950 h1, sliceLe 206700 (by linarith),
        sliceLe 394600 (by linarith), sliceLe 501050 (by linarith),
        sliceLe 751600 (by linarith), max_eq_left (by linarith : x - 751600 ≤ 0)]
      ring
    · rcases le_or_lt x 96950 with h2 | h2
      · rw [if_neg (by linarith), if_pos h2, sliceGe (by norm_num) h1.le,
          sliceMem h1.le h2, sliceLe 206700 h2, sliceLe 394600 (by linarith),
          sliceLe 501050 (by linarith), sliceLe 751600 (by linarith),
          max_eq_left (by linarith : x - 751600 ≤ 0)]
        ring
      · rcases le_or_lt x 206700 with h3 | h3
        · rw [if_neg (by linarith), if_neg (by linarith), if_pos h3,
            sliceGe (by norm_num) h1.le, sliceGe (by norm_num) h2.le,
            sliceMem h2.le h3, sliceLe 394600 h3, sliceLe 501050 (by linarith),
            sliceLe 751600 (by linarith), max_eq_left (by linarith : x - 751600 ≤ 0)]
          ring
        · rcases le_or_lt x 394600 with h4 | h4
          · rw [if_neg (by linarith), if_neg (by linarith), if_neg (by linarith), if_pos h4,
              sliceGe (by norm_num) h1.le, sliceGe (by norm_num) h2.le,
              sliceGe (by norm_num) h3.le, sliceMem h3.le h4, sliceLe 501050 h4,
              sliceLe 751600 (by linarith), max_eq_left (by linarith : x - 751600 ≤ 0)]
            ring
          · rcases le_or_lt x 501050 with h5 | h5
            · rw [if_neg (by linarith), if_neg (by linarith), if_neg (by linarith),
                if_neg (by linarith), if_pos h5, sliceGe (by norm_num) h1.le,
                sliceGe (by norm_num) h2.le, sliceGe (by norm_num) h3.le,
                sliceGe (by norm_num) h4.le, sliceMem h4.le h5, sliceLe 751600 h5,
                max_eq_left (by linarith : x - 751600 ≤ 0)]
              ring
            · rcases le_or_lt x 751600 with h6 | h6
              · rw [if_neg (by linarith), if_neg (by linarith), if_neg (by linarith),
                  if_neg (by linarith), if_neg (by linarith), if_pos h6,
                  sliceGe (by norm_num) h1.le, sliceGe (by norm_num) h2.le,
                  sliceGe (by norm_num) h3.le, sliceGe (by norm_num) h4.le,
                  sliceGe (by norm_num) h5.le, sliceMem h5.le h6,
                  max_eq_left (by linarith : x - 751600 ≤ 0)]
                ring
              · rw [if_neg (by linarith), if_neg (by linarith), if_neg (by linarith),
                  if_neg (by linarith), if_neg (by linarith), if_neg (by linarith),
                  sliceGe (by norm_num) h1.le, sliceGe (by norm_num) h2.le,
                  sliceGe (by norm_num) h3.le, sliceGe (by norm_num) h4.le,
                  sliceGe (by norm_num) h5.le, sliceGe (by norm_num) h6.le,
                  max_eq_right (by linarith : (0:ℚ) ≤ x - 751600)]
                ring

theorem ordTaxE_mono {x y : ℚ} (h : x ≤ y) : ordTaxE x ≤ ordTaxE y := by
  simp only [ordTaxE, slice]
  gcongr

theorem ordTaxE_nonneg (x : ℚ) : 0 ≤ ordTaxE x := by
  simp only [ordTaxE, slice]
  linarith [le_max_left (0:ℚ) (min x 23850 - 0), le_max_left (0:ℚ) (min x 96950 - 23850),
    le_max_left (0:ℚ) (min x 206700 - 96950), le_max_left (0:ℚ) (min x 394600 - 206700),
    le_max_left (0:ℚ) (min x 501050 - 394600), le_max_left (0:ℚ) (min x 751600 - 501050),
    le_max_left (0:ℚ) (x - 751600)]

theorem taxFromBrackets_ord_mono {x y : ℚ} (h : x ≤ y) :
    taxFromBrackets x ORD_BRACKETS ≤ taxFromBrackets y ORD_BRACKETS := by
  rw [taxFromBrackets_ord, taxFromBrackets_ord]
  exact ordTaxE_mono h

theorem zBand_nonneg (tO tL : ℚ) : 0 ≤ zBand tO tL := le_max_left _ _

theorem fBand_nonneg (tO tL : ℚ) : 0 ≤ fBand tO tL := le_max_left _ _

theorem tBand_nonneg (tO tL : ℚ) : 0 ≤ tBand tO tL := le_max_left _ _

/-- The three stacking bands partition the taxable gains exactly. -/
theorem bands_sum {tO tL : ℚ} (htL : 0 ≤ tL) :
    zBand tO tL + fBand tO tL + tBand tO tL = tL := by
  simp only [zBand, fBand, tBand, clamp0, min_def, max_def]
  split_ifs <;> linarith

/-- Closed form of the gains-stacking tax: 15% on the part of the stacked
window above the zero-band top plus another 5% on the part above the
fifteen-band top. -/
theorem stack_closed {tO tL : ℚ} (htO : 0 ≤ tO) (htL : 0 ≤ tL) :
    stackTax tO tL =
      0.15 * min tL (clamp0 (tO + tL - CG_ZERO)) +
        0.05 * min tL (clamp0 (tO + tL - CG_FIFTEEN)) := by
  simp only [stackTax, zBand, fBand, tBand, clamp0, CG_ZERO, CG_FIFTEEN]
  rcases le_or_lt (tO + tL) 96700 with hA | hA
  · rw [min_eq_left (show tL ≤ 96700 - tO by linarith), max_eq_right htL,
      min_eq_left (show tL - tL ≤ 600050 - (tO + tL) by linarith),
      max_eq_right (show (0:ℚ) ≤ tL - tL by linarith),
      max_eq_left (show tL - tL - (tL - tL) ≤ (0:ℚ) by linarith),
      max_eq_left (show tO + tL - 96700 ≤ (0:ℚ) by linarith),
      max_eq_left (show tO + tL - 600050 ≤ (0:ℚ) by linarith),
      min_eq_right (show (0:ℚ) ≤ tL from htL)]
    ring
  · rcases le_or_lt tO 96700 with hB | hB
    · rcases le_or_lt (tO + tL) 600050 with hC | hC
      · rw [min_eq_right (show 96700 - tO ≤ tL by linarith),
          max_eq_right (show (0:ℚ) ≤ 96700 - tO by linarith),
          min_eq_left (show tL - (96700 - tO) ≤ 600050 - (tO + (96700 - tO)) by linarith),
          max_eq_right (show (0:ℚ) ≤ tL - (96700 - tO) by linarith),
          max_eq_left
            (show tL - (96700 - tO) - (tL - (96700 - tO)) ≤ (0:ℚ) by linarith),
          max_eq_right (show (0:ℚ) ≤ tO + tL - 96700 by linarith),
          min_eq_right (show tO + tL - 96700 ≤ tL by linarith),
          max_eq_left (show tO + tL - 600050 ≤ (0:ℚ) by linarith),
          min_eq_right (show (0:ℚ) ≤ tL from htL)]
        ring
      · rw [min_eq_right (show 96700 - tO ≤ tL by linarith),
          max_eq_right (show (0:ℚ) ≤ 96700 - tO by linarith),
          min_eq_right
            (show 600050 - (tO + (96700 - tO)) ≤ tL - (96700 - tO) by linarith),
          max_eq_right (show (0:ℚ) ≤ 600050 - (tO + (96700 - tO)) by linarith),
          max_eq_right (show (0:ℚ) ≤
            tL - (96700 - tO) - (600050 - (tO + (96700 - tO))) by linarith),
          max_eq_right (show (0:ℚ) ≤ tO + tL - 96700 by linarith),
          min_eq_right (show tO + tL - 96700 ≤ tL by linarith),
          max_eq_right (show (0:ℚ) ≤ tO + tL - 600050 by linarith),
          min_eq_right (show tO + tL - 600050 ≤ tL by linarith)]
        ring
    · rcases le_or_lt tO 600050 with hD | hD
      · rcases le_or_lt (tO + tL) 600050 with hE | hE
        · rw [min_eq_right (show 96700 - tO ≤ tL by linarith),
            max_eq_left (show 96700 - tO ≤ (0:ℚ) by linarith),
            min_eq_left (show tL - 0 ≤ 600050 - (tO + 0) by linarith),
            max_eq_right (show (0:ℚ) ≤ tL - 0 by linarith),
            max_eq_left (show tL - 0 - (tL - 0) ≤ (0:ℚ) by linarith),
            max_eq_right (show (0:ℚ) ≤ tO + tL - 96700 by linarith),
            min_eq_left (show tL ≤ tO + tL - 96700 by linarith),
            max_eq_left (show tO + tL - 600050 ≤ (0:ℚ) by linarith),
            min_eq_right (show (0:ℚ) ≤ tL from htL)]
          ring
        · rw [min_eq_right (show 96700 - tO ≤ tL by linarith),
            max_eq_left (show 96700 - tO ≤ (0:ℚ) by linarith),
            min_eq_right (show 600050 - (tO + 0) ≤ tL - 0 by linarith),
            max_eq_right (show (0:ℚ) ≤ 600050 - (tO + 0) by linarith),
            max_eq_right (show (0:ℚ) ≤ tL - 0 - (600050 - (tO + 0)) by linarith),
            max_eq_right (show (0:ℚ) ≤ tO + tL - 96700 by linarith),
            min_eq_left (show tL ≤ tO + tL - 96700 by linarith),
            max_eq_right (show (0:ℚ) ≤ tO + tL - 600050 by linarith),
            min_eq_right (show tO + tL - 600050 ≤ tL by linarith)]
          ring
      · rw [min_eq_right (show 96700 - tO ≤ tL by linarith),
          max_eq_left (show 96700 - tO ≤ (0:ℚ) by linarith),
          min_eq_right (show 600050 - (tO + 0) ≤ tL - 0 by linarith),
          max_eq_left (show 600050 - (tO + 0) ≤ (0:ℚ) by linarith),
          max_eq_right (show (0:ℚ) ≤ tL - 0 - 0 by linarith),
          max_eq_right (show (0:ℚ) ≤ tO + tL - 96700 by linarith),
          min_eq_left (show tL ≤ tO + tL - 96700 by linarith),
          max_eq_right (show (0:ℚ) ≤ tO + tL - 600050 by linarith),
          min_eq_left (show tL ≤ tO + tL - 600050 by linarith)]
        ring

/-- The stacking tax grows when the ordinary stack base or the gains grow. -/
theorem stack_mono {tO tL tO' tL' : ℚ} (htO : 0 ≤ tO) (htL : 0 ≤ tL)
    (h1 : tO ≤ tO') (h2 : tL ≤ tL') : stackTax tO tL ≤ stackTax tO' tL' := by
  rw [stack_closed htO htL, stack_closed (htO.trans h1) (htL.trans h2)]
  have e1 : min tL (clamp0 (tO + tL - CG_ZERO)) ≤ min tL' (clamp0 (tO' + tL' - CG_ZERO)) :=
    min_le_min h2 (clamp0_mono (by linarith))
  have e2 : min tL (clamp0 (tO + tL - CG_FIFTEEN)) ≤ min tL' (clamp0 (tO' + tL' - CG_FIFTEEN)) :=
    min_le_min h2 (clamp0_mono (by linarith))
  linarith

theorem saltCap_antimono {m m' : ℚ} (h : m ≤ m') : saltCapMFJ m' ≤ saltCapMFJ m := by
  simp only [saltCapMFJ]
  have h1 := clamp0_mono (show m - SALT_PHASEOUT_START_MAGI ≤ m' - SALT_PHASEOUT_START_MAGI by
    linarith)
  have h2 := mul_le_mul_of_nonneg_left h1 (show (0:ℚ) ≤ SALT_PHASEOUT_RATE by
    norm_num [SALT_PHASEOUT_RATE])
  exact max_le_max le_rfl (by linarith)

theorem saltCap_floor {m : ℚ} (h : 600000 ≤ m) : saltCapMFJ m = SALT_FLOOR_CAP := by
  simp only [saltCapMFJ, clamp0, SALT_BASE_CAP, SALT_FLOOR_CAP, SALT_PHASEOUT_RATE,
    SALT_PHASEOUT_START_MAGI]
  rw [max_eq_right (by linarith : (0:ℚ) ≤ m - 500000), max_eq_left (by linarith)]

/-- The child-credit phase-out steps equal the ceiling formula with no
positivity guard (the guard only skips `⌈0⌉ = 0`). -/
theorem ctc_closed (m : ℚ) :
    childTaxCreditNonrefundable m =
      max 0 (3 * CTC_PER_CHILD -
        (⌈clamp0 (m - CTC_PHASEOUT_START) / CTC_PHASEOUT_STEP⌉ : ℚ) * CTC_PHASEOUT_PER_STEP) := by
  simp only [childTaxCreditNonrefundable]
  rcases lt_or_le 0 (clamp0 (m - CTC_PHASEOUT_START)) with h | h
  · rw [if_pos h]
  · have h0 : clamp0 (m - CTC_PHASEOUT_START) = 0 := le_antisymm h (clamp0_nonneg _)
    rw [if_neg (by rw [h0]; exact lt_irrefl 0), h0]
    norm_num

theorem ctc_antimono {m m' : ℚ} (h : m ≤ m') :
    childTaxCreditNonrefundable m' ≤ childTaxCreditNonrefundable m := by
  rw [ctc_closed, ctc_closed]
  have hstep : (0:ℚ) < CTC_PHASEOUT_STEP := by norm_num [CTC_PHASEOUT_STEP]
  have hdiv : clamp0 (m - CTC_PHASEOUT_START) / CTC_PHASEOUT_STEP ≤
      clamp0 (m' - CTC_PHASEOUT_START) / CTC_PHASEOUT_STEP := by
    gcongr
    exact clamp0_mono (by linarith)
  have hceil : (⌈clamp0 (m - CTC_PHASEOUT_START) / CTC_PHASEOUT_STEP⌉ : ℚ) ≤
      (⌈clamp0 (m' - CTC_PHASEOUT_START) / CTC_PHASEOUT_STEP⌉ : ℚ) := by
    exact_mod_cast Int.ceil_mono hdiv
  have hmul := mul_le_mul_of_nonneg_right hceil
    (show (0:ℚ) ≤ CTC_PHASEOUT_PER_STEP by norm_num [CTC_PHASEOUT_PER_STEP])
  exact max_le_max le_rfl (by linarith)

/-- Credit netting: subtracting the used (capped) credit from pre-credit tax
is the clamped subtraction of the whole credit. -/
theorem totalTax_eq (o l d c s : ℚ) :
    totalTax o l d c s =
      max 0 (taxBeforeCredits o l d c s - childTaxCreditNonrefundable (magi o l d)) := by
  simp only [totalTax, ctcUsed, min_def, max_def]
  split_ifs <;> linarith

theorem taxableOrdinary_nonneg (o l d c s : ℚ) : 0 ≤ taxableOrdinary o l d c s :=
  le_max_left _ _

theorem taxableLtcg_nonneg (o l d c s : ℚ) : 0 ≤ taxableLtcg o l d c s := le_max_left _ _

/-- With non-negative gains the inner `clamp0` of `taxableLtcg` is inert:
taxable income minus taxable ordinary income is already non-negative. -/
theorem taxableLtcg_eq {o l d c s : ℚ} (hl : 0 ≤ l) :
    taxableLtcg o l d c s = taxableIncome o l d c s - taxableOrdinary o l d c s := by
  have hAB : ordinaryPart o d - deductionUsed o l d c s ≤ agi o l d - deductionUsed o l d c s := by
    simp only [agi]; linarith
  have h := clamp0_mono hAB
  simp only [taxableLtcg, taxableIncome, taxableOrdinary] at *
  exact clamp0_of_nonneg (by linarith)

/-- Raising ordinary income and dividends by a total of `Δ` raises the
deduction by at most the charitable AGI-cap fraction of `Δ`. -/
theorem deductionUsed_shift {o l d c s o' d' : ℚ} (ho : o ≤ o') (hd : d ≤ d') :
    deductionUsed o' l d' c s ≤
      deductionUsed o l d c s + CHARITABLE_CASH_AGI_CAP * ((o' + d') - (o + d)) := by
  have hΔ : 0 ≤ (o' + d') - (o + d) := by linarith
  have hcap : (0:ℚ) ≤ CHARITABLE_CASH_AGI_CAP := by norm_num [CHARITABLE_CASH_AGI_CAP]
  have hagi : agi o' l d' = agi o l d + ((o' + d') - (o + d)) := by
    simp only [agi, ordinaryPart]; ring
  have hca : charitableAllowed o' l d' c ≤
      charitableAllowed o l d c + CHARITABLE_CASH_AGI_CAP * ((o' + d') - (o + d)) := by
    simp only [charitableAllowed, hagi, mul_add]
    exact min_add_le (mul_nonneg hcap hΔ)
  have hsa : saltAllowed o' l d' s ≤ saltAllowed o l d s := by
    simp only [saltAllowed]
    exact min_le_min le_rfl (saltCap_antimono (by simp only [magi, hagi]; linarith))
  have hit : itemized o' l d' c s ≤
      itemized o l d c s + CHARITABLE_CASH_AGI_CAP * ((o' + d') - (o + d)) := by
    simp only [itemized]; linarith
  calc deductionUsed o' l d' c s
      ≤ max STD_DED (itemized o l d c s + CHARITABLE_CASH_AGI_CAP * ((o' + d') - (o + d))) :=
        max_le_max le_rfl hit
    _ ≤ deductionUsed o l d c s + CHARITABLE_CASH_AGI_CAP * ((o' + d') - (o + d)) :=
        max_add_le (mul_nonneg hcap hΔ)

theorem jround_mono {x y : ℚ} (h : x ≤ y) : jround x ≤ jround y :=
  Int.floor_mono (by linarith)

theorem jround_nonneg {x : ℚ} (h : 0 ≤ x) : 0 ≤ jround x :=
  Int.floor_nonneg.mpr (by linarith)

/-- Rounding each of three non-negative-tax summands separately loses less
than one unit and a half against rounding any smaller amount whole. -/
theorem jround_sum_bound {u a b c : ℚ} (h : u ≤ a + b + c) :
    jround u ≤ jround a + jround b + jround c + 1 := by
  have fa : a + 1 / 2 - 1 < (⌊a + 1 / 2⌋ : ℚ) := Int.sub_one_lt_floor _
  have fb : b + 1 / 2 - 1 < (⌊b + 1 / 2⌋ : ℚ) := Int.sub_one_lt_floor _
  have fc : c + 1 / 2 - 1 < (⌊c + 1 / 2⌋ : ℚ) := Int.sub_one_lt_floor _
  have fu : ((⌊u + 1 / 2⌋ : ℤ) : ℚ) ≤ u + 1 / 2 := Int.floor_le _
  have hlt : jround u < jround a + jround b + jround c + 2 := by
    have : ((jround u : ℤ) : ℚ) < ((jround a + jround b + jround c + 2 : ℤ) : ℚ) := by
      simp only [jround]
      push_cast
      linarith
    exact_mod_cast this
  omega

theorem dollarsFromK_nonneg (k : JNum) : 0 ≤ dollarsFromK k := by
  cases k with
  | nan => norm_num [dollarsFromK, clamp0J]
  | posInf => norm_num [dollarsFromK, clamp0J]
  | negInf => norm_num [dollarsFromK, clamp0J]
  | fin q => exact mul_nonneg (le_max_left 0 q) (by norm_num)

theorem dollarsFromK_mono {x y : ℚ} (h : x ≤ y) :
    dollarsFromK (.fin x) ≤ dollarsFromK (.fin y) :=
  mul_le_mul_of_nonneg_right (max_le_max le_rfl h) (by norm_num)

/-- Master monotonicity, upward direction: raising ordinary income and
dividends (the two components of the ordinary part) never lowers the
unrounded total tax. -/
theorem totalTax_mono_up {o l d c s o' d' : ℚ} (hl : 0 ≤ l) (ho : o ≤ o') (hd : d ≤ d') :
    totalTax o l d c s ≤ totalTax o' l d' c s := by
  have hded_ub := deductionUsed_shift (l := l) (c := c) (s := s) ho hd
  have hcapΔ : CHARITABLE_CASH_AGI_CAP * ((o' + d') - (o + d)) ≤ (o' + d') - (o + d) := by
    norm_num [CHARITABLE_CASH_AGI_CAP]
    linarith
  set e := ((o' + d') - (o + d)) - (deductionUsed o' l d' c s - deductionUsed o l d c s)
    with he_def
  have he : 0 ≤ e := by
    simp only [he_def]
    linarith
  have hA : ordinaryPart o' d' - deductionUsed o' l d' c s =
      (ordinaryPart o d - deductionUsed o l d c s) + e := by
    simp only [he_def, ordinaryPart]
    ring
  have hB : agi o' l d' - deductionUsed o' l d' c s =
      (agi o l d - deductionUsed o l d c s) + e := by
    simp only [he_def, agi, ordinaryPart]
    ring
  have hAB : ordinaryPart o d - deductionUsed o l d c s ≤
      agi o l d - deductionUsed o l d c s := by
    simp only [agi]
    linarith
  have htO : taxableOrdinary o l d c s ≤ taxableOrdinary o' l d' c s := by
    simp only [taxableOrdinary]
    rw [hA]
    exact clamp0_mono (by linarith)
  have hshift := clamp0_shift hAB he
  have htL : taxableLtcg o l d c s ≤ taxableLtcg o' l d' c s := by
    rw [taxableLtcg_eq hl, taxableLtcg_eq hl]
    simp only [taxableIncome, taxableOrdinary]
    rw [hA, hB]
    linarith
  have hord : ordinaryTax o l d c s ≤ ordinaryTax o' l d' c s := taxFromBrackets_ord_mono htO
  have hstack : ltcgTax o l d c s ≤ ltcgTax o' l d' c s :=
    stack_mono (taxableOrdinary_nonneg _ _ _ _ _) (taxableLtcg_nonneg _ _ _ _ _) htO htL
  have hmagi : magi o l d ≤ magi o' l d' := by
    simp only [magi, agi, ordinaryPart]
    linarith
  have hniit : niitTax o l d ≤ niitTax o' l d' := by
    simp only [niitTax, niitBase, nii]
    exact mul_le_mul_of_nonneg_right
      (min_le_min (clamp0_mono (by linarith)) (clamp0_mono (by linarith)))
      (by norm_num [NIIT_RATE])
  have htbc : taxBeforeCredits o l d c s ≤ taxBeforeCredits o' l d' c s := by
    simp only [taxBeforeCredits]
    linarith
  have hctc := ctc_antimono hmagi
  rw [totalTax_eq, totalTax_eq]
  exact max_le_max le_rfl (by linarith)

/-- Master monotonicity, downward direction: raising charitable giving and
SALT paid never raises the unrounded total tax. -/
theorem totalTax_mono_down {o l d c s c' s' : ℚ} (hl : 0 ≤ l) (hc : c ≤ c') (hs : s ≤ s') :
    totalTax o l d c' s' ≤ totalTax o l d c s := by
  have hded : deductionUsed o l d c s ≤ deductionUsed o l d c' s' := by
    simp only [deductionUsed, itemized, charitableAllowed, saltAllowed]
    exact max_le_max le_rfl (add_le_add (min_le_min hc le_rfl) (min_le_min hs le_rfl))
  set e := deductionUsed o l d c' s' - deductionUsed o l d c s with he_def
  have he : 0 ≤ e := by
    simp only [he_def]
    linarith
  have hA : ordinaryPart o d - deductionUsed o l d c s =
      (ordinaryPart o d - deductionUsed o l d c' s') + e := by
    simp only [he_def]
    ring
  have hB : agi o l d - deductionUsed o l d c s =
      (agi o l d - deductionUsed o l d c' s') + e := by
    simp only [he_def]
    ring
  have hAB' : ordinaryPart o d - deductionUsed o l d c' s' ≤
      agi o l d - deductionUsed o l d c' s' := by
    simp only [agi]
    linarith
  have htO : taxableOrdinary o l d c' s' ≤ taxableOrdinary o l d c s := by
    simp only [taxableOrdinary]
    rw [hA]
    exact clamp0_mono (by linarith)
  have hshift := clamp0_shift hAB' he
  have htL : taxableLtcg o l d c' s' ≤ taxableLtcg o l d c s := by
    rw [taxableLtcg_eq hl, taxableLtcg_eq hl]
    simp only [taxableIncome, taxableOrdinary]
    rw [hA, hB]
    linarith
  have hord : ordinaryTax o l d c' s' ≤ ordinaryTax o l d c s := taxFromBrackets_ord_mono htO
  have hstack : ltcgTax o l d c' s' ≤ ltcgTax o l d c s :=
    stack_mono (taxableOrdinary_nonneg _ _ _ _ _) (taxableLtcg_nonneg _ _ _ _ _) htO htL
  have htbc : taxBeforeCredits o l d c' s' ≤ taxBeforeCredits o l d c s := by
    simp only [taxBeforeCredits]
    linarith
  rw [totalTax_eq, totalTax_eq]
  exact max_le_max le_rfl (by linarith)

/-- C1: end-to-end scenario A.  `estimateTaxMFJ` on inputs (in thousands)
ordinary=123, gains=123, dividends=12, charitable=12, SALT=12 returns
adjustedGrossIncome (`agi`) 258000, deductionUsed 31500 with the standard
deduction used (`itemizedUsed = false`), taxableOrdinary 103500,
taxableLongTermGains (`taxableLtcg`) 123000, ordinaryTax 12598,
longTermGainsTax (`ltcgTax`) 18450, netInvestmentIncomeTax (`niitTax`) 304,
childCreditUsed 6600 and totalTax 24752. -/
theorem C1_end_to_end_scenario_A :
    (estimateTaxMFJ (.fin 123) (.fin 123) (.fin 12) (.fin 12) (.fin 12)).agi = 258000 ∧
    (estimateTaxMFJ (.fin 123) (.fin 123) (.fin 12) (.fin 12) (.fin 12)).deductionUsed = 31500 ∧
    (estimateTaxMFJ (.fin 123) (.fin 123) (.fin 12) (.fin 12) (.fin 12)).itemizedUsed = false ∧
    (estimateTaxMFJ (.fin 123) (.fin 123) (.fin 12) (.fin 12) (.fin 12)).taxableOrdinary =
      103500 ∧
    (estimateTaxMFJ (.fin 123) (.fin 123) (.fin 12) (.fin 12) (.fin 12)).taxableLtcg = 123000 ∧
    (estimateTaxMFJ (.fin 123) (.fin 123) (.fin 12) (.fin 12) (.fin 12)).ordinaryTax = 12598 ∧
    (estimateTaxMFJ (.fin 123) (.fin 123) (.fin 12) (.fin 12) (.fin 12)).ltcgTax = 18450 ∧
    (estimateTaxMFJ (.fin 123) (.fin 123) (.fin 12) (.fin 12) (.fin 12)).niitTax = 304 ∧
    (estimateTaxMFJ (.fin 123) (.fin 123) (.fin 12) (.fin 12)
      (.fin 12)).childTaxCreditNonrefundableUsed = 6600 ∧
    (estimateTaxMFJ (.fin 123) (.fin 123) (.fin 12) (.fin 12) (.fin 12)).totalTax = 24752 := by
  norm_num [estimateTaxMFJ, dollarsFromK, clamp0J, clamp0, agi, ordinaryPart, magi,
    charitableAllowed, saltAllowed, itemized, deductionUsed, taxableOrdinary, taxableIncome,
    taxableLtcg, ordinaryTax, taxFromBrackets, bracketLoop, ORD_BRACKETS, jsMinUp, jsLeUp,
    BUpTo.finVal, zBand, fBand, tBand, stackTax, ltcgTax, nii, niitBase, niitTax,
    taxBeforeCredits, ctcUsed, totalTax, childTaxCreditNonrefundable, saltCapMFJ, STD_DED,
    CG_ZERO, CG_FIFTEEN, SALT_BASE_CAP, SALT_FLOOR_CAP, SALT_PHASEOUT_START_MAGI,
    SALT_PHASEOUT_RATE, CTC_PER_CHILD, CTC_PHASEOUT_START, CTC_PHASEOUT_STEP,
    CTC_PHASEOUT_PER_STEP, NIIT_THRESHOLD, NIIT_RATE, CHARITABLE_CASH_AGI_CAP, jround,
    min_def, max_def, decide_eq_false_iff_not]

/-- C2 counterexample: the claim that increasing any single input never
decreases `totalTax` is false.  Raising the long-term-gains input from 6 to
7 (thousands), with ordinary=234, dividends=0, charitable=200, SALT=0 held
fixed, strictly lowers `totalTax` (3651 < 3723): the larger gains enlarge
the 60%-of-AGI charitable cap, the binding charitable deduction grows by
0.6 per gained dollar of AGI, and the displaced 12%-bracket ordinary tax
shrinks faster than the 0%-band gains add tax. -/
theorem C2_counterexample_gains_increase_lowers_tax :
    (estimateTaxMFJ (.fin 234) (.fin 7) (.fin 0) (.fin 200) (.fin 0)).totalTax <
      (estimateTaxMFJ (.fin 234) (.fin 6) (.fin 0) (.fin 200) (.fin 0)).totalTax := by
  norm_num [estimateTaxMFJ, dollarsFromK, clamp0J, clamp0, agi, ordinaryPart, magi,
    charitableAllowed, saltAllowed, itemized, deductionUsed, taxableOrdinary, taxableIncome,
    taxableLtcg, ordinaryTax, taxFromBrackets, bracketLoop, ORD_BRACKETS, jsMinUp, jsLeUp,
    BUpTo.finVal, zBand, fBand, tBand, stackTax, ltcgTax, nii, niitBase, niitTax,
    taxBeforeCredits, ctcUsed, totalTax, childTaxCreditNonrefundable, saltCapMFJ, STD_DED,
    CG_ZERO, CG_FIFTEEN, SALT_BASE_CAP, SALT_FLOOR_CAP, SALT_PHASEOUT_START_MAGI,
    SALT_PHASEOUT_RATE, CTC_PER_CHILD, CTC_PHASEOUT_START, CTC_PHASEOUT_STEP,
    CTC_PHASEOUT_PER_STEP, NIIT_THRESHOLD, NIIT_RATE, CHARITABLE_CASH_AGI_CAP, jround,
    min_def, max_def]

/-- C2 amended: `totalTax` is non-decreasing in the ordinary-income input
and in the dividends input, and non-increasing in the charitable input and
in the SALT input (each with the other four inputs held fixed); it is not
monotone in the long-term-gains input. -/
theorem C2_monotonicity_amended :
    (∀ (x y : ℚ) (lK dK cK sK : JNum), x ≤ y →
      (estimateTaxMFJ (.fin x) lK dK cK sK).totalTax ≤
        (estimateTaxMFJ (.fin y) lK dK cK sK).totalTax) ∧
    (∀ (x y : ℚ) (oK lK cK sK : JNum), x ≤ y →
      (estimateTaxMFJ oK lK (.fin x) cK sK).totalTax ≤
        (estimateTaxMFJ oK lK (.fin y) cK sK).totalTax) ∧
    (∀ (x y : ℚ) (oK lK dK sK : JNum), x ≤ y →
      (estimateTaxMFJ oK lK dK (.fin y) sK).totalTax ≤
        (estimateTaxMFJ oK lK dK (.fin x) sK).totalTax) ∧
    (∀ (x y : ℚ) (oK lK dK cK : JNum), x ≤ y →
      (estimateTaxMFJ oK lK dK cK (.fin y)).totalTax ≤
        (estimateTaxMFJ oK lK dK cK (.fin x)).totalTax) := by
  refine ⟨?_, ?_, ?_, ?_⟩
  · intro x y lK dK cK sK h
    simp only [estimateTaxMFJ]
    exact jround_mono (totalTax_mono_up (dollarsFromK_nonneg lK) (dollarsFromK_mono h) le_rfl)
  · intro x y oK lK cK sK h
    simp only [estimateTaxMFJ]
    exact jround_mono (totalTax_mono_up (dollarsFromK_nonneg lK) le_rfl (dollarsFromK_mono h))
  · intro x y oK lK dK sK h
    simp only [estimateTaxMFJ]
    exact jround_mono (totalTax_mono_down (dollarsFromK_nonneg lK) (dollarsFromK_mono h) le_rfl)
  · intro x y oK lK dK cK h
    simp only [estimateTaxMFJ]
    exact jround_mono (totalTax_mono_down (dollarsFromK_nonneg lK) le_rfl (dollarsFromK_mono h))

/-- C2 witness: the amended monotonicity at a concrete instance, raising the
ordinary-income input from 100 to 150. -/
theorem C2_monotonicity_amended_witness :
    (estimateTaxMFJ (.fin 100) (.fin 10) (.fin 5) (.fin 5) (.fin 5)).totalTax ≤
      (estimateTaxMFJ (.fin 150) (.fin 10) (.fin 5) (.fin 5) (.fin 5)).totalTax :=
  C2_monotonicity_amended.1 100 150 (.fin 10) (.fin 5) (.fin 5) (.fin 5) (by norm_num)

/-- C3 counterexample: with ordinary=100, charitable=19.5, SALT=12
(thousands) the itemized deduction is exactly the standard deduction 31500,
and the result's `itemizedUsed` flag is `true` — the code computes
`deductionUsed === itemized`, so an exact tie reports the itemized
deduction as used, contradicting the claim that ties favor standard. -/
theorem C3_counterexample_tie_reports_itemized :
    itemized (dollarsFromK (.fin 100)) (dollarsFromK (.fin 0)) (dollarsFromK (.fin 0))
        (dollarsFromK (.fin 19.5)) (dollarsFromK (.fin 12)) = STD_DED ∧
    (estimateTaxMFJ (.fin 100) (.fin 0) (.fin 0) (.fin 19.5) (.fin 12)).itemizedUsed = true := by
  norm_num [estimateTaxMFJ, dollarsFromK, clamp0J, clamp0, agi, ordinaryPart, magi,
    charitableAllowed, saltAllowed, itemized, deductionUsed, saltCapMFJ, STD_DED,
    SALT_BASE_CAP, SALT_FLOOR_CAP, SALT_PHASEOUT_START_MAGI, SALT_PHASEOUT_RATE,
    CHARITABLE_CASH_AGI_CAP, min_def, max_def, decide_eq_true_eq]

/-- C3 amended: `deductionUsed = max(standardDeduction, itemized)` holds
exactly, and `itemizedUsed` is true exactly when the itemized deduction is
greater than or equal to the standard deduction — so an exact tie reports
itemized (the flag is `deductionUsed === itemized`), not standard. -/
theorem C3_deduction_selector_amended :
    ∀ oK lK dK cK sK : JNum,
      deductionUsed (dollarsFromK oK) (dollarsFromK lK) (dollarsFromK dK) (dollarsFromK cK)
          (dollarsFromK sK) =
        max STD_DED (itemized (dollarsFromK oK) (dollarsFromK lK) (dollarsFromK dK)
          (dollarsFromK cK) (dollarsFromK sK)) ∧
      ((estimateTaxMFJ oK lK dK cK sK).itemizedUsed = true ↔
        STD_DED ≤ itemized (dollarsFromK oK) (dollarsFromK lK) (dollarsFromK dK)
          (dollarsFromK cK) (dollarsFromK sK)) := by
  intro oK lK dK cK sK
  refine ⟨rfl, ?_⟩
  simp only [estimateTaxMFJ, decide_eq_true_eq, deductionUsed]
  exact max_eq_right_iff

/-- C4: for every non-negative `taxableOrdinary` and non-negative
`taxableLtcg`, the three stacking bands are non-negative and sum exactly to
`taxableLtcg`: no gain is taxed twice and none is dropped. -/
theorem C4_gains_stacking_exhaustive :
    ∀ tO tL : ℚ, 0 ≤ tO → 0 ≤ tL →
      0 ≤ zBand tO tL ∧ 0 ≤ fBand tO tL ∧ 0 ≤ tBand tO tL ∧
        zBand tO tL + fBand tO tL + tBand tO tL = tL := by
  intro tO tL _ h2
  exact ⟨zBand_nonneg _ _, fBand_nonneg _ _, tBand_nonneg _ _, bands_sum h2⟩

/-- C4 witness: the band partition at `taxableOrdinary = 50000`,
`taxableLtcg = 700000` (gains spanning all three bands). -/
theorem C4_gains_stacking_exhaustive_witness :
    0 ≤ zBand 50000 700000 ∧ 0 ≤ fBand 50000 700000 ∧ 0 ≤ tBand 50000 700000 ∧
      zBand 50000 700000 + fBand 50000 700000 + tBand 50000 700000 = 700000 :=
  C4_gains_stacking_exhaustive 50000 700000 (by norm_num) (by norm_num)

/-- C5 counterexample: on inputs ordinary=31.502, gains=96.7 (thousands,
charitable/SALT/dividends zero) the unrounded taxes are 0.2, 0.3 and 0, so
the credit used is 0.5; after per-field rounding the result record has
`childTaxCreditNonrefundableUsed = 1` but
`ordinaryTax + ltcgTax + niitTax = 0 + 0 + 0`, violating the claimed
inequality on the result's fields. -/
theorem C5_counterexample_rounded_credit_exceeds_sum :
    (estimateTaxMFJ (.fin 31.502) (.fin 96.7) (.fin 0) (.fin 0)
      (.fin 0)).childTaxCreditNonrefundableUsed = 1 ∧
    (estimateTaxMFJ (.fin 31.502) (.fin 96.7) (.fin 0) (.fin 0) (.fin 0)).ordinaryTax = 0 ∧
    (estimateTaxMFJ (.fin 31.502) (.fin 96.7) (.fin 0) (.fin 0) (.fin 0)).ltcgTax = 0 ∧
    (estimateTaxMFJ (.fin 31.502) (.fin 96.7) (.fin 0) (.fin 0) (.fin 0)).niitTax = 0 := by
  norm_num [estimateTaxMFJ, dollarsFromK, clamp0J, clamp0, agi, ordinaryPart, magi,
    charitableAllowed, saltAllowed, itemized, deductionUsed, taxableOrdinary, taxableIncome,
    taxableLtcg, ordinaryTax, taxFromBrackets, bracketLoop, ORD_BRACKETS, jsMinUp, jsLeUp,
    BUpTo.finVal, zBand, fBand, tBand, stackTax, ltcgTax, nii, niitBase, niitTax,
    taxBeforeCredits, ctcUsed, totalTax, childTaxCreditNonrefundable, saltCapMFJ, STD_DED,
    CG_ZERO, CG_FIFTEEN, SALT_BASE_CAP, SALT_FLOOR_CAP, SALT_PHASEOUT_START_MAGI,
    SALT_PHASEOUT_RATE, CTC_PER_CHILD, CTC_PHASEOUT_START, CTC_PHASEOUT_STEP,
    CTC_PHASEOUT_PER_STEP, NIIT_THRESHOLD, NIIT_RATE, CHARITABLE_CASH_AGI_CAP, jround,
    min_def, max_def]

/-- C5 amended: for every input vector the result's `totalTax` is
non-negative and the credit used never exceeds the pre-credit tax: exactly
for the unrounded values (`ctcUsed ≤ taxBeforeCredits`), and within one
currency unit on the independently rounded result fields. -/
theorem C5_nonrefundability_amended :
    ∀ oK lK dK cK sK : JNum,
      0 ≤ (estimateTaxMFJ oK lK dK cK sK).totalTax ∧
      (estimateTaxMFJ oK lK dK cK sK).childTaxCreditNonrefundableUsed ≤
        (estimateTaxMFJ oK lK dK cK sK).ordinaryTax + (estimateTaxMFJ oK lK dK cK sK).ltcgTax +
          (estimateTaxMFJ oK lK dK cK sK).niitTax + 1 ∧
      ctcUsed (dollarsFromK oK) (dollarsFromK lK) (dollarsFromK dK) (dollarsFromK cK)
          (dollarsFromK sK) ≤
        taxBeforeCredits (dollarsFromK oK) (dollarsFromK lK) (dollarsFromK dK)
          (dollarsFromK cK) (dollarsFromK sK) := by
  intro oK lK dK cK sK
  refine ⟨?_, ?_, min_le_left _ _⟩
  · simp only [estimateTaxMFJ]
    exact jround_nonneg (le_max_left _ _)
  · simp only [estimateTaxMFJ]
    exact jround_sum_bound (min_le_left _ _)

/-- C6: the child-credit reduction is the ceiling-step formula
`⌈clamp0(magi - start) / step⌉ * perStep` clamped at zero, and one currency
unit of MAGI above the 400000 threshold already costs the full 50-unit
step: the credit falls from 6600 at 400000 to 6550 at 400001. -/
theorem C6_child_credit_ceiling_step :
    (∀ m : ℚ,
      childTaxCreditNonrefundable m =
        max 0 (3 * CTC_PER_CHILD -
          (⌈clamp0 (m - CTC_PHASEOUT_START) / CTC_PHASEOUT_STEP⌉ : ℚ) *
            CTC_PHASEOUT_PER_STEP)) ∧
    childTaxCreditNonrefundable 400000 = 6600 ∧
    childTaxCreditNonrefundable 400001 = 6600 - CTC_PHASEOUT_PER_STEP := by
  refine ⟨ctc_closed, ?_, ?_⟩
  · norm_num [childTaxCreditNonrefundable, clamp0, CTC_PER_CHILD, CTC_PHASEOUT_START,
      CTC_PHASEOUT_STEP, CTC_PHASEOUT_PER_STEP, max_def]
  · have hceil : ⌈(1 : ℚ) / 1000⌉ = (1 : ℤ) := by
      rw [Int.ceil_eq_iff]
      norm_num
    norm_num [childTaxCreditNonrefundable, clamp0, CTC_PER_CHILD, CTC_PHASEOUT_START,
      CTC_PHASEOUT_STEP, CTC_PHASEOUT_PER_STEP, max_def, hceil]

/-- C7: the SALT cap is monotonically non-increasing in MAGI, and from MAGI
600000 on (where the linear 0.3-per-dollar phase-down meets the floor) it
equals the floor cap 10000 exactly. -/
theorem C7_salt_cap_ramp_and_floor :
    (∀ m1 m2 : ℚ, m1 ≤ m2 → saltCapMFJ m2 ≤ saltCapMFJ m1) ∧
    (∀ m : ℚ, 600000 ≤ m → saltCapMFJ m = SALT_FLOOR_CAP) :=
  ⟨fun _ _ h => saltCap_antimono h, fun _ h => saltCap_floor h⟩

/-- C7 witness: the cap at concrete points — non-increasing from 550000 to
650000, and pinned to the floor at exactly 600000. -/
theorem C7_salt_cap_ramp_and_floor_witness :
    saltCapMFJ 650000 ≤ saltCapMFJ 550000 ∧ saltCapMFJ 600000 = SALT_FLOOR_CAP :=
  ⟨C7_salt_cap_ramp_and_floor.1 550000 650000 (by norm_num),
   C7_salt_cap_ramp_and_floor.2 600000 (by norm_num)⟩

/-- C8 counterexample: the engine has no load-time validation and no error
channel.  Fed a bracket table `[{upTo: 100, rate: 0.1}]` that does not
cover `[0, ∞)`, `taxFromBrackets` silently returns the same tax 10 for
income 1000000 as for income 100 — income above the last bound is
untaxed (a silent undercompute), and no failure occurs. -/
theorem C8_counterexample_no_fail_fast :
    taxFromBrackets 1000000 [⟨.fin 100, 0.1⟩] = 10 ∧
      taxFromBrackets 100 [⟨.fin 100, 0.1⟩] = 10 := by
  constructor <;>
    norm_num [taxFromBrackets, bracketLoop, jsLeUp, jsMinUp, BUpTo.finVal, min_def, max_def]

/-- C8 amended: the code performs no PolicyTable validation and cannot fail
fast: `taxFromBrackets` is a total function on arbitrary bracket lists, and
on a table not covering `[0, ∞)` every income at or above the last upper
bound yields the same tax — the excess is silently untaxed. -/
theorem C8_amended_silent_undercompute :
    ∀ x : ℚ, 100 ≤ x → taxFromBrackets x [⟨.fin 100, 0.1⟩] = 10 := by
  intro x hx
  rw [taxFromBrackets, if_neg (by linarith)]
  simp only [bracketLoop, jsLeUp, jsMinUp, BUpTo.finVal, ite_self]
  rw [min_eq_right hx]
  norm_num

/-- C8 witness: the amended statement at the concrete income 1000000. -/
theorem C8_amended_silent_undercompute_witness :
    (100 : ℚ) ≤ 1000000 ∧ taxFromBrackets 1000000 [⟨.fin 100, 0.1⟩] = 10 :=
  ⟨by norm_num, C8_amended_silent_undercompute 1000000 (by norm_num)⟩

/-- C9: ingestion normalization.  A negative finite input becomes 0, a
non-negative finite input becomes `raw * 1000` currency units, every
non-finite input (NaN, ±∞) becomes 0, and the engine is a total function
that only consumes the normalized values: any input vector produces the
same result as its clamped finite normalization. -/
theorem C9_input_normalization :
    (∀ q : ℚ, q < 0 → dollarsFromK (.fin q) = 0) ∧
    (∀ q : ℚ, 0 ≤ q → dollarsFromK (.fin q) = q * 1000) ∧
    dollarsFromK .nan = 0 ∧ dollarsFromK .posInf = 0 ∧ dollarsFromK .negInf = 0 ∧
    (∀ oK lK dK cK sK : JNum,
      estimateTaxMFJ oK lK dK cK sK =
        estimateTaxMFJ (.fin (clamp0J oK)) (.fin (clamp0J lK)) (.fin (clamp0J dK))
          (.fin (clamp0J cK)) (.fin (clamp0J sK))) := by
  have hd : ∀ k : JNum, dollarsFromK (.fin (clamp0J k)) = dollarsFromK k := by
    intro k
    have h0 : 0 ≤ clamp0J k := by
      cases k with
      | nan => norm_num [clamp0J]
      | posInf => norm_num [clamp0J]
      | negInf => norm_num [clamp0J]
      | fin q => exact le_max_left 0 q
    have h1 : clamp0J (.fin (clamp0J k)) = max 0 (clamp0J k) := rfl
    simp only [dollarsFromK, h1, max_eq_right h0]
  refine ⟨?_, ?_, ?_, ?_, ?_, ?_⟩
  · intro q hq
    simp only [dollarsFromK, clamp0J]
    rw [max_eq_left hq.le]
    norm_num
  · intro q hq
    simp only [dollarsFromK, clamp0J]
    rw [max_eq_right hq]
  · norm_num [dollarsFromK, clamp0J]
  · norm_num [dollarsFromK, clamp0J]
  · norm_num [dollarsFromK, clamp0J]
  · intro oK lK dK cK sK
    simp only [estimateTaxMFJ, hd]

/-- C9 witness: normalization at concrete inputs, negative and
non-negative. -/
theorem C9_input_normalization_witness :
    dollarsFromK (.fin (-5)) = 0 ∧ dollarsFromK (.fin 2) = 2 * 1000 :=
  ⟨C9_input_normalization.1 (-5) (by norm_num), C9_input_normalization.2.1 2 (by norm_num)⟩

/-- C10: deduction-ordering invariant.  For every input vector the
deduction offsets the ordinary part first and the gains only with the
leftover: `taxableOrdinary = max 0 (ordinary + dividends - deductionUsed)`,
`taxableLtcg = max 0 (agi - deductionUsed) - taxableOrdinary`, their sum is
`max 0 (agi - deductionUsed)`, and `taxableLtcg` never exceeds the
long-term-gains amount. -/
theorem C10_deduction_ordering :
    ∀ oK lK dK cK sK : JNum,
      taxableOrdinary (dollarsFromK oK) (dollarsFromK lK) (dollarsFromK dK) (dollarsFromK cK)
          (dollarsFromK sK) =
        max 0 ((dollarsFromK oK + dollarsFromK dK) -
          deductionUsed (dollarsFromK oK) (dollarsFromK lK) (dollarsFromK dK) (dollarsFromK cK)
            (dollarsFromK sK)) ∧
      taxableLtcg (dollarsFromK oK) (dollarsFromK lK) (dollarsFromK dK) (dollarsFromK cK)
          (dollarsFromK sK) =
        max 0 (agi (dollarsFromK oK) (dollarsFromK lK) (dollarsFromK dK) -
            deductionUsed (dollarsFromK oK) (dollarsFromK lK) (dollarsFromK dK)
              (dollarsFromK cK) (dollarsFromK sK)) -
          taxableOrdinary (dollarsFromK oK) (dollarsFromK lK) (dollarsFromK dK)
            (dollarsFromK cK) (dollarsFromK sK) ∧
      taxableOrdinary (dollarsFromK oK) (dollarsFromK lK) (dollarsFromK dK) (dollarsFromK cK)
            (dollarsFromK sK) +
          taxableLtcg (dollarsFromK oK) (dollarsFromK lK) (dollarsFromK dK) (dollarsFromK cK)
            (dollarsFromK sK) =
        max 0 (agi (dollarsFromK oK) (dollarsFromK lK) (dollarsFromK dK) -
          deductionUsed (dollarsFromK oK) (dollarsFromK lK) (dollarsFromK dK) (dollarsFromK cK)
            (dollarsFromK sK)) ∧
      taxableLtcg (dollarsFromK oK) (dollarsFromK lK) (dollarsFromK dK) (dollarsFromK cK)
          (dollarsFromK sK) ≤ dollarsFromK lK := by
  intro oK lK dK cK sK
  have hl := dollarsFromK_nonneg lK
  have h2 := taxableLtcg_eq (o := dollarsFromK oK) (d := dollarsFromK dK)
    (c := dollarsFromK cK) (s := dollarsFromK sK) hl
  have h3 : max 0 (agi (dollarsFromK oK) (dollarsFromK lK) (dollarsFromK dK) -
      deductionUsed (dollarsFromK oK) (dollarsFromK lK) (dollarsFromK dK) (dollarsFromK cK)
        (dollarsFromK sK)) =
      taxableIncome (dollarsFromK oK) (dollarsFromK lK) (dollarsFromK dK) (dollarsFromK cK)
        (dollarsFromK sK) := rfl
  refine ⟨rfl, ?_, ?_, ?_⟩
  · rw [h2, h3]
  · rw [h2, h3]
    ring
  · rw [h2]
    simp only [taxableIncome, taxableOrdinary, agi, ordinaryPart, clamp0, max_def]
    split_ifs <;> linarith

end Tax
